import Mathlib

/-!
# Verification of the `sortie` audio relocation pipeline

Shallow embedding of `src/sortie.py` (a batch S3 audio re-pathing utility)
and proofs about its discovery, staging, path-resolution, publish and
clean-up behaviour.

Modelling conventions:
* Python strings are Lean `String`s; `str.endswith` is modelled by
  `pyEndsWith` (character-suffix test, matching Python semantics).
* The S3 client (`boto3`) is an oracle (`Store`) supplying the bucket
  listing and per-call success/failure of download/upload/delete; a failed
  client call raises `ClientError`, which the `S3io` layer may or may not
  translate, exactly as the `try/except` blocks in the source do.
* `uuid.uuid5(uuid.NAMESPACE_OID, name)` is implemented concretely
  (SHA-1 over the namespace bytes followed by the UTF-8 bytes of `name`,
  with version/variant bits set), so staging filenames are computed
  exactly as the source computes them.
* Jinja2 template rendering is modelled over a tokenised template
  (`Tok.lit` / `Tok.var`): a variable passed with a `None` value renders
  as the string `"None"` (Jinja2 applies `str` to defined values), while
  a variable that is not among the keyword arguments renders as the empty
  string (default `Undefined`). Tags read by `TinyTag` are `Option String`
  (`none` = absent tag, Python `None`).
* The local cache directory is a list of filenames in creation order;
  `os.walk` enumeration is modelled as that order.
-/

set_option maxRecDepth 100000
set_option maxHeartbeats 2000000

/-- Python `s.endswith(suffix)`: character-level suffix test. -/
def pyEndsWith (s suffix : String) : Bool :=
  suffix.data.isSuffixOf s.data

/-- Jinja2 rendering of a value passed as a keyword argument: a Python
`None` renders as the string `"None"`, any string renders as itself. -/
def pyNoneStr : Option String → String
  | none => "None"
  | some s => s

/-! ## UTF-8 encoding (Python `bytes(name, "utf-8")`) -/

/-- UTF-8 encoding of one Unicode code point, as byte values. -/
def utf8EncodeCodepoint (n : Nat) : List Nat :=
  if n < 0x80 then [n]
  else if n < 0x800 then
    [0xC0 ||| (n >>> 6), 0x80 ||| (n &&& 0x3F)]
  else if n < 0x10000 then
    [0xE0 ||| (n >>> 12), 0x80 ||| ((n >>> 6) &&& 0x3F), 0x80 ||| (n &&& 0x3F)]
  else
    [0xF0 ||| (n >>> 18), 0x80 ||| ((n >>> 12) &&& 0x3F),
     0x80 ||| ((n >>> 6) &&& 0x3F), 0x80 ||| (n &&& 0x3F)]

/-- UTF-8 encoding of a string, as byte values. -/
def utf8Bytes (s : String) : List Nat :=
  s.data.flatMap (fun c => utf8EncodeCodepoint c.toNat)

/-! ## SHA-1 (as used by `uuid.uuid5`) -/

/-- 32-bit left rotation (operands below `2 ^ 32`). -/
def rotl32 (n x : Nat) : Nat :=
  ((x <<< n) % 4294967296) ||| ((x % 4294967296) >>> (32 - n))

/-- SHA-1 round function. -/
def sha1F (t b c d : Nat) : Nat :=
  if t < 20 then (b &&& c) ||| ((b ^^^ 4294967295) &&& d)
  else if t < 40 then b ^^^ c ^^^ d
  else if t < 60 then (b &&& c) ||| (b &&& d) ||| (c &&& d)
  else b ^^^ c ^^^ d

/-- SHA-1 round constants. -/
def sha1K (t : Nat) : Nat :=
  if t < 20 then 0x5A827999
  else if t < 40 then 0x6ED9EBA1
  else if t < 60 then 0x8F1BBCDC
  else 0xCA62C1D6

/-- Big-endian 32-bit word from four bytes. -/
def wordOfBytes (a b c d : Nat) : Nat :=
  ((a * 256 + b) * 256 + c) * 256 + d

/-- Group a byte list into big-endian 32-bit words. -/
def bytesToWords : List Nat → List Nat
  | a :: b :: c :: d :: rest => wordOfBytes a b c d :: bytesToWords rest
  | _ => []

/-- Big-endian bytes of a 64-bit length value. -/
def lenBytes8 (n : Nat) : List Nat :=
  [n / 2 ^ 56 % 256, n / 2 ^ 48 % 256, n / 2 ^ 40 % 256, n / 2 ^ 32 % 256,
   n / 2 ^ 24 % 256, n / 2 ^ 16 % 256, n / 2 ^ 8 % 256, n % 256]

/-- Big-endian bytes of a 32-bit word. -/
def wordBytes (n : Nat) : List Nat :=
  [n / 2 ^ 24 % 256, n / 2 ^ 16 % 256, n / 2 ^ 8 % 256, n % 256]

/-- SHA-1 message padding: `0x80`, zeros to 56 mod 64, 64-bit bit length. -/
def sha1PadBytes (msg : List Nat) : List Nat :=
  let L := msg.length
  let z := (119 - L % 64) % 64
  msg ++ [0x80] ++ List.replicate z 0 ++ lenBytes8 (8 * L)

/-- Split a padded message into 64-byte blocks. -/
def sha1Blocks (padded : List Nat) : List (List Nat) :=
  (List.range (padded.length / 64)).map (fun i => (padded.drop (64 * i)).take 64)

/-- Extend the 16 message words of a block, appending `n` schedule words. -/
def sha1Extend (acc : List Nat) : Nat → List Nat
  | 0 => acc
  | n + 1 =>
    let t := acc.length
    let w := rotl32 1 ((acc.getD (t - 3) 0) ^^^ (acc.getD (t - 8) 0) ^^^
                       (acc.getD (t - 14) 0) ^^^ (acc.getD (t - 16) 0))
    sha1Extend (acc ++ [w]) n

/-- One SHA-1 round on the five-word working state. -/
def sha1Round (st : Nat × Nat × Nat × Nat × Nat) (t w : Nat) :
    Nat × Nat × Nat × Nat × Nat :=
  let (a, b, c, d, e) := st
  let tmp := (rotl32 5 a + sha1F t b c d + e + sha1K t + w) % 4294967296
  (tmp, a, rotl32 30 b, c, d)

/-- SHA-1 compression of one 64-byte block. -/
def sha1Compress (h : Nat × Nat × Nat × Nat × Nat) (block : List Nat) :
    Nat × Nat × Nat × Nat × Nat :=
  let ws := sha1Extend (bytesToWords block) 64
  let (a, b, c, d, e) := ws.enum.foldl (fun st p => sha1Round st p.1 p.2) h
  let (h0, h1, h2, h3, h4) := h
  ((h0 + a) % 4294967296, (h1 + b) % 4294967296, (h2 + c) % 4294967296,
   (h3 + d) % 4294967296, (h4 + e) % 4294967296)

/-- SHA-1 digest (20 bytes) of a byte list. -/
def sha1 (msg : List Nat) : List Nat :=
  let blocks := sha1Blocks (sha1PadBytes msg)
  let (h0, h1, h2, h3, h4) :=
    blocks.foldl sha1Compress
      (0x67452301, 0xEFCDAB89, 0x98BADCFE, 0x10325476, 0xC3D2E1F0)
  wordBytes h0 ++ wordBytes h1 ++ wordBytes h2 ++ wordBytes h3 ++ wordBytes h4

/-! ## `uuid.uuid5(uuid.NAMESPACE_OID, name)` -/

/-- The 16 bytes of `uuid.NAMESPACE_OID`. -/
def NAMESPACE_OID : List Nat :=
  [0x6b, 0xa7, 0xb8, 0x12, 0x9d, 0xad, 0x11, 0xd1,
   0x80, 0xb4, 0x00, 0xc0, 0x4f, 0xd4, 0x30, 0xc8]

/-- Replace the byte at index `i` by `f` of its old value. -/
def setByteAt (l : List Nat) (i : Nat) (f : Nat → Nat) : List Nat :=
  l.set i (f (l.getD i 0))

/-- The 16 bytes of a version-5 UUID for `name` under `NAMESPACE_OID`. -/
def uuid5Bytes (name : String) : List Nat :=
  let digest := (sha1 (NAMESPACE_OID ++ utf8Bytes name)).take 16
  let d1 := setByteAt digest 6 (fun b => (b &&& 0x0F) ||| 0x50)
  setByteAt d1 8 (fun b => (b &&& 0x3F) ||| 0x80)

/-- Lowercase hex digit. -/
def hexDigit (n : Nat) : String :=
  ["0", "1", "2", "3", "4", "5", "6", "7",
   "8", "9", "a", "b", "c", "d", "e", "f"].getD n "0"

/-- Two lowercase hex digits of a byte. -/
def hexByte (n : Nat) : String :=
  hexDigit (n / 16) ++ hexDigit (n % 16)

/-- Lowercase hex of a byte list. -/
def hexBytes (l : List Nat) : String :=
  String.join (l.map hexByte)

/-- Embedded `str(uuid.uuid5(uuid.NAMESPACE_OID, name))`: 8-4-4-4-12 hex groups. -/
def uuid5Str (name : String) : String :=
  let b := uuid5Bytes name
  hexBytes (b.take 4) ++ "-" ++ hexBytes ((b.drop 4).take 2) ++ "-" ++
    hexBytes ((b.drop 6).take 2) ++ "-" ++ hexBytes ((b.drop 8).take 2) ++
    "-" ++ hexBytes (b.drop 10)

/-- Sanity check of the uuid5 model against
`uuid.uuid5(uuid.NAMESPACE_OID, "music/01.mp3")` in CPython. -/
theorem uuid5_reference_value :
    uuid5Str "music/01.mp3" = "00c52942-9caa-5ad8-a2d1-592afeef78a2" := by
  decide

/-! ## ID3 tags and Jinja2 templates (`TrackConverter`) -/

/-- Tags as read by `TinyTag.get`: each of artist/album/title may be
absent (Python `None`). -/
structure Tags where
  artist : Option String
  album : Option String
  title : Option String
deriving DecidableEq

/-- One token of the tokenised `sort_mask` template: literal text or a
`{{ name }}` variable reference. -/
inductive Tok where
  | lit (s : String)
  | var (name : String)
deriving DecidableEq

/-- Jinja2 rendering of one template token under
`render(artist=tags.artist, album=tags.album, title=tags.title)`:
the three passed variables render via `pyNoneStr`; any other variable is
undefined and renders as the empty string. -/
def renderTok (tags : Tags) : Tok → String
  | .lit s => s
  | .var n =>
    if n = "artist" then pyNoneStr tags.artist
    else if n = "album" then pyNoneStr tags.album
    else if n = "title" then pyNoneStr tags.title
    else ""

/-- Embedded `Template(ref).render(artist=..., album=..., title=...)`. -/
def renderTemplate (tags : Tags) (tmpl : List Tok) : String :=
  String.join (tmpl.map (renderTok tags))

/-- Embedded `TrackConverter.load_target_template`: render the `sort_mask`
template with the three tag fields of the staged file. -/
def TrackConverter.load_target_template (tags : Tags) (ref : List Tok) : String :=
  renderTemplate tags ref

/-! ## Error taxonomy and the store oracle (`S3io`) -/

/-- Embedded `botocore.exceptions.ClientError`, carrying an error code. -/
structure ClientError where
  code : String
deriving DecidableEq

/-- Errors a run can abort with.  `invalidPermissions` and
`invalidValue` and `configMissingAWSCLIProfile` are the script's own
exception classes; `attributeError` is Python's `AttributeError`
(raised by `Logger.__init__` reading a missing `config.log_file`);
`rawClientError` is an untranslated `botocore` `ClientError` escaping a
call the script does not wrap in `try/except`. -/
inductive SortieErr where
  | invalidPermissions
  | invalidValue
  | configMissingAWSCLIProfile
  | attributeError
  | rawClientError (e : ClientError)
deriving DecidableEq

/-- Oracle for the external S3 service and boto3 session: the bucket
listing, whether the credential profile resolves, and the outcome of
each client-level call. -/
structure Store where
  profile_ok : Bool
  client_list : Except ClientError (List String)
  client_download : String → String → Except ClientError Unit
  client_upload : String → String → Except ClientError Unit
  client_delete : String → Except ClientError Unit

/-- Embedded `S3io.list_bucket_contents`: wraps the paginated listing in
`try/except ClientError`, translating to `InvalidPermissions`. -/
def S3io.list_bucket_contents (st : Store) : Except SortieErr (List String) :=
  match st.client_list with
  | .ok files => .ok files
  | .error _ => .error .invalidPermissions

/-- Embedded `S3io.download_file`: wraps the client call in
`try/except ClientError`, translating to `InvalidPermissions`. -/
def S3io.download_file (st : Store) (remote_filename local_filename : String) :
    Except SortieErr Unit :=
  match st.client_download remote_filename local_filename with
  | .ok _ => .ok ()
  | .error _ => .error .invalidPermissions

/-- Embedded `S3io.upload_file`: NO `try/except` in the source — a `ClientError`
raised by the client propagates unchanged. -/
def S3io.upload_file (st : Store) (local_filename object_name : String) :
    Except SortieErr Unit :=
  match st.client_upload local_filename object_name with
  | .ok _ => .ok ()
  | .error e => .error (.rawClientError e)

/-- Embedded `S3io.delete_file`: likewise no `try/except` in the source. -/
def S3io.delete_file (st : Store) (object_name : String) :
    Except SortieErr Unit :=
  match st.client_delete object_name with
  | .ok _ => .ok ()
  | .error e => .error (.rawClientError e)

/-! ## Configuration (`Config`) and logging (`Logger`) -/

/-- The raw values present in `conf/sortie.ini` (reading/validation of
the ini file itself is an external collaborator).  `sort_mask` is the
already-tokenised template string. -/
structure RawIni where
  environment : String
  bucket : String
  log_to_file : Bool
  logging_level : Int
  log_file : String
  ingestion_mode : String
  track_list : String
  cache_dir : String
  sort_mask : List Tok
  clean_up : Bool
  persistent_cache : Bool

/-- The `Config` object after `Config.__init__`: an attribute that the
constructor only conditionally assigns is an `Option` (`none` = the
Python attribute does not exist). -/
structure Config where
  environment : String
  bucket : String
  log_to_file : Bool
  max_logging_level : Int
  log_file : Option String
  ingestion_mode : String
  track_list : Option String
  cache_dir : String
  sort_mask : List Tok
  clean_up : Bool
  persistent_cache : Bool

/-- Embedded `Config.__init__`: `log_file` is read only when `log_to_file` is
true (lines 100-103); `track_list` only when the mode is `track_list`. -/
def Config.init (raw : RawIni) : Config :=
  { environment := raw.environment
    bucket := raw.bucket
    log_to_file := raw.log_to_file
    max_logging_level := raw.logging_level
    log_file := if raw.log_to_file then some raw.log_file else none
    ingestion_mode := raw.ingestion_mode
    track_list := if raw.ingestion_mode = "track_list" then some raw.track_list else none
    cache_dir := raw.cache_dir
    sort_mask := raw.sort_mask
    clean_up := raw.clean_up
    persistent_cache := raw.persistent_cache }

/-- The `Logger` object. -/
structure Logger where
  mask_name : String
  verbosity : Int
  log_to_file : Bool
  log_file : String

/-- Embedded `Logger.__init__`: unconditionally reads `config.log_file`
(line 178); if `Config.__init__` never assigned that attribute this
raises `AttributeError`. -/
def Logger.init (mask_name : String) (config : Config) :
    Except SortieErr Logger :=
  match config.log_file with
  | some lf => .ok ⟨mask_name, config.max_logging_level, config.log_to_file, lf⟩
  | none => .error .attributeError

/-! ## Source enumeration (`TrackLister`) -/

/-- The `for track in data['input']` loop of `ingest_trackfile`,
appending `.mp3`-suffixed entries to the accumulator. -/
def ingest_trackfile_loop : List String → List String → List String
  | [], tracks => tracks
  | t :: ts, tracks =>
    ingest_trackfile_loop ts (if pyEndsWith t ".mp3" then tracks ++ [t] else tracks)

/-- Embedded `TrackLister.ingest_trackfile`, applied to the parsed `input` array
of the manifest JSON document. -/
def TrackLister.ingest_trackfile (data_input : List String) : List String :=
  ingest_trackfile_loop data_input []

/-- The `os.walk` loop of `ingest_cache`, over the cache directory's
filenames. -/
def ingest_cache_loop : List String → List String → List String
  | [], tracks => tracks
  | f :: fs, tracks =>
    ingest_cache_loop fs (if pyEndsWith f ".mp3" then tracks ++ [f] else tracks)

/-- Embedded `TrackLister.ingest_cache`, applied to the cache directory's current
filenames. -/
def TrackLister.ingest_cache (files : List String) : List String :=
  ingest_cache_loop files []

/-- The filtering loop of `ingest_s3`:
`if not item.endswith('/') and item.endswith('.mp3')`. -/
def ingest_s3_loop : List String → List String → List String
  | [], tracks => tracks
  | i :: is, tracks =>
    ingest_s3_loop is
      (if !pyEndsWith i "/" && pyEndsWith i ".mp3" then tracks ++ [i] else tracks)

/-- Embedded `TrackLister.ingest_s3`: list the bucket via the orchestrator, then
filter out directory markers and non-`.mp3` keys. -/
def TrackLister.ingest_s3 (st : Store) : Except SortieErr (List String) :=
  match S3io.list_bucket_contents st with
  | .error e => .error e
  | .ok contents => .ok (ingest_s3_loop contents [])

/-- External inputs of one run: the store oracle, the parsed `input`
array of the manifest file, and the `TinyTag.get` oracle (tags of each
local file path). -/
structure World where
  store : Store
  manifest_input : List String
  tags_of : String → Tags

/-- Embedded `TrackLister.__init__` (given the current cache directory
contents), returning the `tracks` attribute. -/
def TrackLister.init (config : Config) (w : World) (cache : List String) :
    Except SortieErr (List String) :=
  match Logger.init "TrackLister" config with
  | .error e => .error e
  | .ok _ =>
    if config.ingestion_mode = "track_list" then
      .ok (TrackLister.ingest_trackfile w.manifest_input)
    else if config.ingestion_mode = "dynamic" then
      TrackLister.ingest_s3 w.store
    else if config.ingestion_mode = "cache" then
      .ok (TrackLister.ingest_cache cache)
    else
      .error .invalidValue

/-! ## The publish pipeline (`Main` and its helpers) -/

/-- One remote-object-store operation issued by the run. -/
inductive Op where
  | download (remote local_filename : String)
  | upload (local_filename remote : String)
  | deleteObj (remote : String)
deriving DecidableEq

/-- Is this operation a delete? -/
def isDeleteOp : Op → Bool
  | .deleteObj _ => true
  | _ => false

/-- The staging filename of a source identifier:
`str(uuid.uuid5(uuid.NAMESPACE_OID, track)) + ".mp3"`
(from the format string in `download_all_tracks`). -/
def stage_filename (track : String) : String :=
  uuid5Str track ++ ".mp3"

/-- The full local path `"{cache_dir}/{uuid5(track)}.mp3"` used by
`download_all_tracks`. -/
def stage_local_path (config : Config) (track : String) : String :=
  config.cache_dir ++ "/" ++ stage_filename track

/-- Writing a file into the cache directory: creates the name if not
present, otherwise overwrites in place. -/
def putCache (cache : List String) (name : String) : List String :=
  if name ∈ cache then cache else cache ++ [name]

/-- Embedded `download_all_tracks`: download every track to its staging path,
sequentially; a failed download aborts the run.  Returns the issued
operations, the resulting cache directory contents, and the outcome. -/
def download_all_tracks (config : Config) (st : Store) :
    List String → List String → List Op × List String × Except SortieErr Unit
  | [], cache => ([], cache, .ok ())
  | t :: ts, cache =>
    let lf := stage_local_path config t
    match S3io.download_file st t lf with
    | .error e => ([Op.download t lf], cache, .error e)
    | .ok _ =>
      let rest := download_all_tracks config st ts (putCache cache (stage_filename t))
      (Op.download t lf :: rest.1, rest.2)

/-- A `TrackConverter` object: staged local path plus rendered target. -/
structure ConvertedTrack where
  local_path : String
  target_path : String
deriving DecidableEq

/-- Embedded `TrackConverter.__init__`: construct its `Logger`, read the tags of
the staged file, render the `sort_mask` template. -/
def TrackConverter.init (config : Config) (w : World) (filepath : String) :
    Except SortieErr ConvertedTrack :=
  match Logger.init "TrackConverter" config with
  | .error e => .error e
  | .ok _ =>
    .ok ⟨filepath, TrackConverter.load_target_template (w.tags_of filepath) config.sort_mask⟩

/-- The `for track in cache_list` loop of `slurp_cache`, building the
list of `TrackConverter` objects from `"{cache_dir}/{track}"` paths. -/
def convert_all (config : Config) (w : World) :
    List String → Except SortieErr (List ConvertedTrack)
  | [] => .ok []
  | t :: ts =>
    match TrackConverter.init config w (config.cache_dir ++ "/" ++ t) with
    | .error e => .error e
    | .ok c =>
      match convert_all config w ts with
      | .error e => .error e
      | .ok cs => .ok (c :: cs)

/-- Embedded `slurp_cache`: MUTATES the shared config object
(`cacheconf = config; cacheconf.ingestion_mode = 'cache'` — an alias,
not a copy), re-lists the cache directory, and converts every cached
track.  Returns the mutated config (visible to the caller through the
alias) and the converted tracks. -/
def slurp_cache (config : Config) (w : World) (cache : List String) :
    Config × Except SortieErr (List ConvertedTrack) :=
  let cacheconf := { config with ingestion_mode := "cache" }
  match TrackLister.init cacheconf w cache with
  | .error e => (cacheconf, .error e)
  | .ok _ =>
    let cache_list := TrackLister.ingest_cache cache
    (cacheconf, convert_all cacheconf w cache_list)

/-- Embedded `upload_all_tracks`: upload each converted track's local file to its
target path, sequentially; a failure aborts the run. -/
def upload_all_tracks (st : Store) :
    List ConvertedTrack → List Op × Except SortieErr Unit
  | [] => ([], .ok ())
  | c :: cs =>
    match S3io.upload_file st c.local_path c.target_path with
    | .error e => ([Op.upload c.local_path c.target_path], .error e)
    | .ok _ =>
      let rest := upload_all_tracks st cs
      (Op.upload c.local_path c.target_path :: rest.1, rest.2)

/-- Embedded `delete_source_tracks`: delete each source identifier. -/
def delete_source_tracks (st : Store) :
    List String → List Op × Except SortieErr Unit
  | [] => ([], .ok ())
  | t :: ts =>
    match S3io.delete_file st t with
    | .error e => ([Op.deleteObj t], .error e)
    | .ok _ =>
      let rest := delete_source_tracks st ts
      (Op.deleteObj t :: rest.1, rest.2)

deriving instance DecidableEq for Except

/-- The observable outcome of one run: operations issued against the
object store (in order), the final state of the staging directory
(`none` = removed by `shutil.rmtree`), and normal or abnormal
termination. -/
structure RunResult where
  ops : List Op
  cache_final : Option (List String)
  outcome : Except SortieErr Unit
deriving DecidableEq

/-- Embedded `Main()`, given the constructed `Config`, the external world and the
initial cache directory contents (`Config.__init__` has already created
the directory if absent).  Mirrors the source line by line: Logger and
S3io construction, `TrackLister`, the conditional download phase, the
config-mutating `slurp_cache`, the upload phase, the clean-up guard
re-reading the (now mutated) `config.ingestion_mode`, and the
conditional cache purge. -/
def runMain (config : Config) (w : World) (cache0 : List String) : RunResult :=
  match Logger.init "sortie" config with
  | .error e => ⟨[], some cache0, .error e⟩
  | .ok _ =>
  match Logger.init "S3 Orchestrator" config with
  | .error e => ⟨[], some cache0, .error e⟩
  | .ok _ =>
  if !w.store.profile_ok then ⟨[], some cache0, .error .configMissingAWSCLIProfile⟩ else
  match TrackLister.init config w cache0 with
  | .error e => ⟨[], some cache0, .error e⟩
  | .ok tracks =>
  let staged :=
    if config.ingestion_mode ≠ "cache" then
      download_all_tracks config w.store tracks cache0
    else ([], cache0, .ok ())
  match staged.2.2 with
  | .error e => ⟨staged.1, some staged.2.1, .error e⟩
  | .ok _ =>
  let slurped := slurp_cache config w staged.2.1
  match slurped.2 with
  | .error e => ⟨staged.1, some staged.2.1, .error e⟩
  | .ok cache_list =>
  let uploaded := upload_all_tracks w.store cache_list
  match uploaded.2 with
  | .error e => ⟨staged.1 ++ uploaded.1, some staged.2.1, .error e⟩
  | .ok _ =>
  let cleaned :=
    if slurped.1.clean_up ∧ slurped.1.ingestion_mode ≠ "cache" then
      delete_source_tracks w.store tracks
    else ([], .ok ())
  match cleaned.2 with
  | .error e => ⟨staged.1 ++ uploaded.1 ++ cleaned.1, some staged.2.1, .error e⟩
  | .ok _ =>
  if !slurped.1.persistent_cache then
    ⟨staged.1 ++ uploaded.1 ++ cleaned.1, none, .ok ()⟩
  else
    ⟨staged.1 ++ uploaded.1 ++ cleaned.1, some staged.2.1, .ok ()⟩

def allOkStore (listing : List String) : Store :=
  { profile_ok := true
    client_list := .ok listing
    client_download := fun _ _ => .ok ()
    client_upload := fun _ _ => .ok ()
    client_delete := fun _ => .ok () }

def demoTags : Tags := ⟨some "A", some "B", some "C"⟩

def cfgDemo : Config := Config.init
  { environment := "dev", bucket := "b", log_to_file := true
    logging_level := 4, log_file := "sortie.log"
    ingestion_mode := "track_list", track_list := "tracks.json"
    cache_dir := "cache"
    sort_mask := [Tok.var "artist", Tok.lit "/", Tok.var "album", Tok.lit "/", Tok.var "title", Tok.lit ".mp3"]
    clean_up := true, persistent_cache := true }

def wDemo : World :=
  { store := allOkStore []
    manifest_input := ["music/01.mp3", "music/notes.txt"]
    tags_of := fun _ => demoTags }

/-! ## Helper lemmas -/

/-- Appending a suffix makes `pyEndsWith` true (Python
`(s + t).endswith(t)`). -/
lemma pyEndsWith_append (s t : String) : pyEndsWith (s ++ t) t = true := by
  unfold pyEndsWith
  rw [String.data_append]
  exact List.isSuffixOf_iff_suffix.mpr (List.suffix_append _ _)

/-- Staging filenames always end in `.mp3`. -/
lemma stage_filename_endswith (t : String) :
    pyEndsWith (stage_filename t) ".mp3" = true :=
  pyEndsWith_append _ _

/-- The manifest loop is an order-preserving filter. -/
lemma ingest_trackfile_loop_eq (l acc : List String) :
    ingest_trackfile_loop l acc = acc ++ l.filter (fun t => pyEndsWith t ".mp3") := by
  induction l generalizing acc with
  | nil => simp [ingest_trackfile_loop]
  | cons t ts ih =>
    by_cases h : pyEndsWith t ".mp3" <;>
      simp [ingest_trackfile_loop, h, ih, List.filter_cons]

/-- Embedded `ingest_trackfile` keeps exactly the `.mp3` entries, in order. -/
lemma ingest_trackfile_eq_filter (l : List String) :
    TrackLister.ingest_trackfile l = l.filter (fun t => pyEndsWith t ".mp3") := by
  simp [TrackLister.ingest_trackfile, ingest_trackfile_loop_eq]

/-- The cache walk loop is an order-preserving filter. -/
lemma ingest_cache_loop_eq (l acc : List String) :
    ingest_cache_loop l acc = acc ++ l.filter (fun f => pyEndsWith f ".mp3") := by
  induction l generalizing acc with
  | nil => simp [ingest_cache_loop]
  | cons f fs ih =>
    by_cases h : pyEndsWith f ".mp3" <;>
      simp [ingest_cache_loop, h, ih, List.filter_cons]

/-- Embedded `ingest_cache` keeps exactly the `.mp3` filenames, in order. -/
lemma ingest_cache_eq_filter (l : List String) :
    TrackLister.ingest_cache l = l.filter (fun f => pyEndsWith f ".mp3") := by
  simp [TrackLister.ingest_cache, ingest_cache_loop_eq]

/-- The live-scan loop is an order-preserving filter. -/
lemma ingest_s3_loop_eq (l acc : List String) :
    ingest_s3_loop l acc =
      acc ++ l.filter (fun i => !pyEndsWith i "/" && pyEndsWith i ".mp3") := by
  induction l generalizing acc with
  | nil => simp [ingest_s3_loop]
  | cons i is ih =>
    by_cases h : (!pyEndsWith i "/" && pyEndsWith i ".mp3") = true <;>
      simp [ingest_s3_loop, h, ih, List.filter_cons]

/-- Every operation issued by `download_all_tracks` is a download of a
listed track to its deterministic staging path. -/
lemma download_ops_shape (cfg : Config) (st : Store) :
    ∀ ts cache op, op ∈ (download_all_tracks cfg st ts cache).1 →
      ∃ t, t ∈ ts ∧ op = Op.download t (stage_local_path cfg t) := by
  intro ts
  induction ts with
  | nil => simp [download_all_tracks]
  | cons t ts ih =>
    intro cache op hop
    simp only [download_all_tracks] at hop
    cases hdl : S3io.download_file st t (stage_local_path cfg t) with
    | error e =>
      rw [hdl] at hop
      simp only [List.mem_singleton] at hop
      exact ⟨t, List.mem_cons_self .., hop⟩
    | ok u =>
      rw [hdl] at hop
      simp only [List.mem_cons] at hop
      cases hop with
      | inl h => exact ⟨t, List.mem_cons_self .., h⟩
      | inr h =>
        obtain ⟨s, hs, hop⟩ := ih _ op h
        exact ⟨s, List.mem_cons_of_mem _ hs, hop⟩

/-- Embedded `download_all_tracks` never removes a file from the cache. -/
lemma download_cache_mono (cfg : Config) (st : Store) :
    ∀ ts cache x, x ∈ cache → x ∈ (download_all_tracks cfg st ts cache).2.1 := by
  intro ts
  induction ts with
  | nil => simp [download_all_tracks]
  | cons t ts ih =>
    intro cache x hx
    simp only [download_all_tracks]
    cases hdl : S3io.download_file st t (stage_local_path cfg t) with
    | error e => exact hx
    | ok u =>
      refine ih _ x ?_
      unfold putCache
      split
      · exact hx
      · exact List.mem_append_left _ hx

/-- After a fully successful download phase, the staging file of every
downloaded track is present in the cache directory. -/
lemma download_mem_cache (cfg : Config) (st : Store) :
    ∀ ts cache t l, Op.download t l ∈ (download_all_tracks cfg st ts cache).1 →
      (download_all_tracks cfg st ts cache).2.2 = .ok () →
      stage_filename t ∈ (download_all_tracks cfg st ts cache).2.1 := by
  intro ts
  induction ts with
  | nil => simp [download_all_tracks]
  | cons t0 ts ih =>
    intro cache t l hop hok
    simp only [download_all_tracks] at hop hok ⊢
    cases hdl : S3io.download_file st t0 (stage_local_path cfg t0) with
    | error e => rw [hdl] at hok; simp at hok
    | ok u =>
      rw [hdl] at hop hok
      simp only [List.mem_cons] at hop
      cases hop with
      | inl h =>
        have ht : t = t0 := by
          injection h
        subst ht
        refine download_cache_mono cfg st ts _ _ ?_
        unfold putCache
        split
        · assumption
        · exact List.mem_append_right _ (List.mem_singleton_self _)
      | inr h => exact ih _ t l h hok

/-- Every operation issued by `upload_all_tracks` is the upload of a
converted track's local file to its rendered target path. -/
lemma upload_ops_shape (st : Store) :
    ∀ cs op, op ∈ (upload_all_tracks st cs).1 →
      ∃ c, c ∈ cs ∧ op = Op.upload c.local_path c.target_path := by
  intro cs
  induction cs with
  | nil => simp [upload_all_tracks]
  | cons c cs ih =>
    intro op hop
    simp only [upload_all_tracks] at hop
    cases hul : S3io.upload_file st c.local_path c.target_path with
    | error e =>
      rw [hul] at hop
      simp only [List.mem_singleton] at hop
      exact ⟨c, List.mem_cons_self .., hop⟩
    | ok u =>
      rw [hul] at hop
      simp only [List.mem_cons] at hop
      cases hop with
      | inl h => exact ⟨c, List.mem_cons_self .., h⟩
      | inr h =>
        obtain ⟨d, hd, hop⟩ := ih op h
        exact ⟨d, List.mem_cons_of_mem _ hd, hop⟩

/-- In a fully successful upload phase, every converted track is
uploaded. -/
lemma upload_ok_mem (st : Store) :
    ∀ cs c, (upload_all_tracks st cs).2 = .ok () → c ∈ cs →
      Op.upload c.local_path c.target_path ∈ (upload_all_tracks st cs).1 := by
  intro cs
  induction cs with
  | nil => simp
  | cons c0 cs ih =>
    intro c hok hc
    simp only [upload_all_tracks] at hok ⊢
    cases hul : S3io.upload_file st c0.local_path c0.target_path with
    | error e => rw [hul] at hok; simp at hok
    | ok u =>
      rw [hul] at hok
      simp only [List.mem_cons] at hc
      cases hc with
      | inl h => subst h; exact List.mem_cons_self ..
      | inr h => exact List.mem_cons_of_mem _ (ih c hok h)

/-- No download operation is a delete. -/
lemma download_filter_del (cfg : Config) (st : Store) :
    ∀ ts cache, ((download_all_tracks cfg st ts cache).1).filter isDeleteOp = [] := by
  intro ts cache
  rw [List.filter_eq_nil_iff]
  intro op hop
  obtain ⟨t, _, rfl⟩ := download_ops_shape cfg st ts cache op hop
  simp [isDeleteOp]

/-- No upload operation is a delete. -/
lemma upload_filter_del (st : Store) :
    ∀ cs, ((upload_all_tracks st cs).1).filter isDeleteOp = [] := by
  intro cs
  rw [List.filter_eq_nil_iff]
  intro op hop
  obtain ⟨c, _, rfl⟩ := upload_ops_shape st cs op hop
  simp [isDeleteOp]

/-- The config returned by `slurp_cache` (the caller's aliased config
object) always has its `ingestion_mode` mutated to `"cache"`. -/
lemma slurp_cache_fst (cfg : Config) (w : World) (cache : List String) :
    (slurp_cache cfg w cache).1 = { cfg with ingestion_mode := "cache" } := by
  simp only [slurp_cache]
  split <;> rfl

/-- A successful `TrackConverter.__init__` returns the staged path
paired with the rendered template. -/
lemma trackconverter_init_ok (cfg : Config) (w : World) (p : String)
    (c : ConvertedTrack) (h : TrackConverter.init cfg w p = .ok c) :
    c = ⟨p, TrackConverter.load_target_template (w.tags_of p) cfg.sort_mask⟩ := by
  unfold TrackConverter.init at h
  cases hl : Logger.init "TrackConverter" cfg with
  | error e => rw [hl] at h; cases h
  | ok lg => rw [hl] at h; cases h; rfl

/-- A successful conversion loop converts exactly the given filenames,
in order. -/
lemma convert_all_ok (cfg : Config) (w : World) :
    ∀ fs cs, convert_all cfg w fs = .ok cs →
      cs = fs.map (fun f =>
        ⟨cfg.cache_dir ++ "/" ++ f,
         TrackConverter.load_target_template
           (w.tags_of (cfg.cache_dir ++ "/" ++ f)) cfg.sort_mask⟩) := by
  intro fs
  induction fs with
  | nil => intro cs h; cases h; rfl
  | cons f fs ih =>
    intro cs h
    simp only [convert_all] at h
    cases hc : TrackConverter.init cfg w (cfg.cache_dir ++ "/" ++ f) with
    | error e => rw [hc] at h; cases h
    | ok c =>
      rw [hc] at h
      cases hrest : convert_all cfg w fs with
      | error e => rw [hrest] at h; cases h
      | ok cs0 =>
        rw [hrest] at h
        cases h
        have := trackconverter_init_ok cfg w _ c hc
        subst this
        simp [ih cs0 hrest]

/-- A successful `slurp_cache` converts exactly the `.mp3` files of the
cache directory, pairing each with its rendered target path. -/
lemma slurp_cache_ok (cfg : Config) (w : World) (cache : List String)
    (cs : List ConvertedTrack) (h : (slurp_cache cfg w cache).2 = .ok cs) :
    cs = (TrackLister.ingest_cache cache).map (fun f =>
      ⟨cfg.cache_dir ++ "/" ++ f,
       TrackConverter.load_target_template
         (w.tags_of (cfg.cache_dir ++ "/" ++ f)) cfg.sort_mask⟩) := by
  simp only [slurp_cache] at h
  cases hl : TrackLister.init { cfg with ingestion_mode := "cache" } w cache with
  | error e => rw [hl] at h; cases h
  | ok tr =>
    rw [hl] at h
    simp only at h
    have hc := convert_all_ok { cfg with ingestion_mode := "cache" } w
      (TrackLister.ingest_cache cache) cs h
    simpa using hc

/-- The run never issues a delete against the store: by the time the
clean-up guard is evaluated, `slurp_cache` has already mutated the
shared config's `ingestion_mode` to `"cache"`, so the guard is false in
every mode. -/
lemma runMain_never_deletes (cfg : Config) (w : World) (c0 : List String) :
    ((runMain cfg w c0).ops).filter isDeleteOp = [] := by
  simp only [runMain]
  repeat' split
  all_goals try rfl
  all_goals simp_all [List.filter_append, download_filter_del, upload_filter_del,
    slurp_cache_fst]

/-- The clean-up guard in `Main` always takes the else branch: the
config it reads has been mutated by `slurp_cache`. -/
lemma clean_guard_collapse (cfg : Config) (w : World) (cache : List String)
    (A B : List Op × Except SortieErr Unit) :
    (if (slurp_cache cfg w cache).1.clean_up = true ∧
        (slurp_cache cfg w cache).1.ingestion_mode ≠ "cache" then A else B) = B := by
  rw [if_neg]
  rw [slurp_cache_fst]
  simp

/-- No upload operation is a download. -/
lemma no_download_in_uploads (st : Store) (cs : List ConvertedTrack)
    (c0 : List String) :
    ∀ t l, Op.download t l ∈ (upload_all_tracks st cs).1 → stage_filename t ∈ c0 := by
  intro t l h
  obtain ⟨c, _, heq⟩ := upload_ops_shape st cs _ h
  simp at heq

/-- After a successful download phase, every download recorded in the
combined trace leaves its staging file in the final cache contents. -/
lemma downloads_in_final_cache (cfg : Config) (st : Store) (ts cache : List String)
    (hok : (download_all_tracks cfg st ts cache).2.2 = .ok ())
    (cs : List ConvertedTrack) :
    ∀ t l, Op.download t l ∈ (download_all_tracks cfg st ts cache).1 ∨
        Op.download t l ∈ (upload_all_tracks st cs).1 →
      stage_filename t ∈ (download_all_tracks cfg st ts cache).2.1 := by
  intro t l h
  rcases h with h | h
  · exact download_mem_cache cfg st ts cache t l h hok
  · obtain ⟨c, _, heq⟩ := upload_ops_shape st cs _ h
    simp at heq

/-- Final state of the staging directory after a run that terminates
normally: removed entirely when `persistent_cache` is false, otherwise
untouched and still containing the staging file of every downloaded
track. -/
lemma runMain_final_cache (cfg : Config) (w : World) (c0 : List String) :
    (runMain cfg w c0).outcome = .ok () →
    ((cfg.persistent_cache = false → (runMain cfg w c0).cache_final = none) ∧
     (cfg.persistent_cache = true → ∃ c, (runMain cfg w c0).cache_final = some c ∧
        ∀ t l, Op.download t l ∈ (runMain cfg w c0).ops → stage_filename t ∈ c)) := by
  simp only [runMain, clean_guard_collapse]
  repeat' split
  all_goals intro hok
  all_goals try (solve | simp at hok)
  all_goals refine ⟨fun hp => ?_, fun hp => ?_⟩
  all_goals simp_all [slurp_cache_fst]
  · exact downloads_in_final_cache cfg w.store _ c0 (by assumption) _
  · exact no_download_in_uploads w.store _ c0

/-- After a successful download, slurp and upload phase, every
downloaded track's staged file is uploaded under its rendered target
path. -/
lemma staged_upload_exists (cfg : Config) (w : World) (ts c0 : List String)
    (cs : List ConvertedTrack)
    (hdl : (download_all_tracks cfg w.store ts c0).2.2 = .ok ())
    (hsl : (slurp_cache cfg w (download_all_tracks cfg w.store ts c0).2.1).2 = .ok cs)
    (hup : (upload_all_tracks w.store cs).2 = .ok ())
    (t l : String)
    (h : Op.download t l ∈ (download_all_tracks cfg w.store ts c0).1) :
    Op.upload l (TrackConverter.load_target_template (w.tags_of l) cfg.sort_mask)
      ∈ (upload_all_tracks w.store cs).1 := by
  obtain ⟨t0, ht0, hop⟩ := download_ops_shape cfg w.store ts c0 _ h
  injection hop with h1 h2
  subst h1
  have hmem := download_mem_cache cfg w.store ts c0 t l h hdl
  have hcs := slurp_cache_ok cfg w _ cs hsl
  have hfmem : stage_filename t ∈
      TrackLister.ingest_cache (download_all_tracks cfg w.store ts c0).2.1 := by
    rw [ingest_cache_eq_filter]
    exact List.mem_filter.mpr ⟨hmem, stage_filename_endswith t⟩
  have hcmem : (⟨cfg.cache_dir ++ "/" ++ stage_filename t,
      TrackConverter.load_target_template
        (w.tags_of (cfg.cache_dir ++ "/" ++ stage_filename t)) cfg.sort_mask⟩ :
        ConvertedTrack) ∈ cs := by
    rw [hcs]
    exact List.mem_map_of_mem _ hfmem
  have hfin := upload_ok_mem w.store cs _ hup hcmem
  simpa [h2, stage_local_path] using hfin

/-- Every download recorded by a normally terminating run is followed by
an upload of the same local file under its rendered target path. -/
lemma runMain_uploads_staged (cfg : Config) (w : World) (c0 : List String) :
    (runMain cfg w c0).outcome = .ok () →
    ∀ t l, Op.download t l ∈ (runMain cfg w c0).ops →
      Op.upload l (TrackConverter.load_target_template (w.tags_of l) cfg.sort_mask)
        ∈ (runMain cfg w c0).ops := by
  simp only [runMain, clean_guard_collapse]
  repeat' split
  all_goals intro hok
  all_goals try (solve | simp at hok)
  all_goals intro t l h
  all_goals simp_all [slurp_cache_fst]
  · rcases h with h | h
    · exact Or.inr (staged_upload_exists cfg w _ c0 _ (by assumption)
        (by assumption) (by assumption) t l h)
    · obtain ⟨c, _, heq⟩ := upload_ops_shape w.store _ _ h
      simp at heq
  · rcases h with h | h
    · exact Or.inr (staged_upload_exists cfg w _ c0 _ (by assumption)
        (by assumption) (by assumption) t l h)
    · obtain ⟨c, _, heq⟩ := upload_ops_shape w.store _ _ h
      simp at heq
  · obtain ⟨c, _, heq⟩ := upload_ops_shape w.store _ _ h
    simp at heq
  · obtain ⟨c, _, heq⟩ := upload_ops_shape w.store _ _ h
    simp at heq

/-! ## Demo inputs for witnesses and counterexamples -/

/-- Tags with artist, album and title all absent. -/
def noTags : Tags := ⟨none, none, none⟩

/-- A template referencing all three variables:
`{{artist}}/{{album}}/{{title}}`. -/
def tmplThree : List Tok :=
  [Tok.var "artist", Tok.lit "/", Tok.var "album", Tok.lit "/", Tok.var "title"]

/-- Config of a cache-recovery run with `clean_up = true`. -/
def cfgCache : Config := Config.init
  { environment := "dev", bucket := "b", log_to_file := true
    logging_level := 4, log_file := "sortie.log"
    ingestion_mode := "cache", track_list := "unused"
    cache_dir := "cache", sort_mask := [Tok.var "artist"]
    clean_up := true, persistent_cache := true }

/-- Config whose `sort_mask` template renders the empty string. -/
def cfgEmptyMask : Config := Config.init
  { environment := "dev", bucket := "b", log_to_file := true
    logging_level := 4, log_file := "sortie.log"
    ingestion_mode := "track_list", track_list := "tracks.json"
    cache_dir := "cache", sort_mask := []
    clean_up := false, persistent_cache := true }

/-- World for the empty-template run: one manifest entry, tagless file. -/
def wEmptyMask : World :=
  { store := allOkStore []
    manifest_input := ["a.mp3"]
    tags_of := fun _ => noTags }

/-- Config of a run with `persistent_cache = false`. -/
def cfgPurge : Config := Config.init
  { environment := "dev", bucket := "b", log_to_file := true
    logging_level := 4, log_file := "sortie.log"
    ingestion_mode := "track_list", track_list := "tracks.json"
    cache_dir := "cache", sort_mask := tmplThree
    clean_up := false, persistent_cache := false }

/-- Raw ini values with `log_to_file = false`. -/
def rawNoLog : RawIni :=
  { environment := "dev", bucket := "b", log_to_file := false
    logging_level := 4, log_file := "unused"
    ingestion_mode := "track_list", track_list := "tracks.json"
    cache_dir := "cache", sort_mask := tmplThree
    clean_up := false, persistent_cache := true }

/-- A `ClientError` as boto3 raises on an authorization failure. -/
def deniedClientErr : ClientError := ⟨"AccessDenied"⟩

/-- A store whose every client call fails with `ClientError`. -/
def deniedStore : Store :=
  { profile_ok := true
    client_list := .error deniedClientErr
    client_download := fun _ _ => .error deniedClientErr
    client_upload := fun _ _ => .error deniedClientErr
    client_delete := fun _ => .error deniedClientErr }

/-- Is this operation an upload under the empty destination key? -/
def isEmptyUpload : Op → Bool
  | .upload _ r => r == ""
  | _ => false

/-- The claim C3 expects (spec wording): the template with every
variable substituted by the empty string. -/
def renderSpecEmpty (tmpl : List Tok) : String :=
  String.join (tmpl.map (fun tk => match tk with | .lit s => s | .var _ => ""))

/-- What the code actually renders for a tagless file on a template
using only the three variables: every variable becomes `"None"`. -/
def renderAllNone (tmpl : List Tok) : String :=
  String.join (tmpl.map (fun tk => match tk with | .lit s => s | .var _ => "None"))

/-! ## Claim theorems -/

/-- C1: the spec's CLEAN_SOURCES stage says a run with `clean_up = true`
in a non-cache discovery mode deletes every originally enumerated source
identifier after publishing.  The code cannot do this: `slurp_cache`
mutates the shared config's `ingestion_mode` to `"cache"` before the
clean-up guard reads it, so `delete_source_tracks` is dead code.  At the
concrete failing input (track_list mode, `clean_up = true`, manifest
`["music/01.mp3", "music/notes.txt"]`, all store calls succeeding) the
run completes but issues no delete at all — in particular it never
deletes `music/01.mp3`. -/
theorem c1_cleanup_issues_no_delete_at_failing_input :
    cfgDemo.clean_up = true ∧
    cfgDemo.ingestion_mode = "track_list" ∧
    (runMain cfgDemo wDemo []).outcome = .ok () ∧
    Op.deleteObj "music/01.mp3" ∉ (runMain cfgDemo wDemo []).ops ∧
    (runMain cfgDemo wDemo []).ops.filter isDeleteOp = [] := by
  refine ⟨rfl, rfl, by decide, by decide, runMain_never_deletes cfgDemo wDemo []⟩

/-- C2: a cache-recovery run with `clean_up = true` never issues a
delete against the object store during the entire run (proved from the
stronger fact that no run ever reaches `delete_source_tracks`). -/
theorem c2_cache_recovery_never_deletes (cfg : Config) (w : World)
    (c0 : List String) (hmode : cfg.ingestion_mode = "cache")
    (hclean : cfg.clean_up = true) :
    (runMain cfg w c0).ops.filter isDeleteOp = [] :=
  runMain_never_deletes cfg w c0

/-- C2 witness: a concrete cache-recovery run with `clean_up = true`
and one cached file issues no delete. -/
theorem c2_cache_recovery_never_deletes_witness :
    (runMain cfgCache wDemo ["x.mp3"]).ops.filter isDeleteOp = [] :=
  c2_cache_recovery_never_deletes cfgCache wDemo ["x.mp3"] rfl rfl

/-- C3 counterexample: with all three tags absent the code renders each
referenced variable as the string `"None"` (Jinja2's rendering of a
defined `None` value), not as the empty string the claim states. -/
theorem c3_empty_tag_render_counterexample :
    TrackConverter.load_target_template noTags tmplThree = "None/None/None" ∧
    TrackConverter.load_target_template noTags tmplThree ≠
      renderSpecEmpty tmplThree := by
  refine ⟨by decide, by decide⟩

/-- C3 (amended): for a staged file with artist, album and title all
absent, rendering a template that references only those three variables
returns the template with each variable substituted by the string
`"None"`, and never raises (rendering is a total function). -/
theorem c3_absent_tags_render_as_none (tags : Tags) (tmpl : List Tok)
    (ha : tags.artist = none) (hb : tags.album = none) (hc : tags.title = none)
    (hvars : ∀ n, Tok.var n ∈ tmpl →
      n = "artist" ∨ n = "album" ∨ n = "title") :
    TrackConverter.load_target_template tags tmpl = renderAllNone tmpl := by
  unfold TrackConverter.load_target_template renderTemplate renderAllNone
  congr 1
  refine List.map_congr_left ?_
  intro tk htk
  cases tk with
  | lit s => rfl
  | var n =>
    rcases hvars n htk with h | h | h <;>
      simp [renderTok, h, ha, hb, hc, pyNoneStr]

/-- C3 witness: the amended rendering at the concrete tagless file and
three-variable template. -/
theorem c3_absent_tags_render_as_none_witness :
    TrackConverter.load_target_template noTags tmplThree =
      renderAllNone tmplThree := by
  refine c3_absent_tags_render_as_none noTags tmplThree rfl rfl rfl ?_
  intro n hn
  simp only [tmplThree, List.mem_cons, List.not_mem_nil, or_false] at hn
  rcases hn with h | h | h | h | h <;> simp_all

/-- C4: every download issued by the staging phase writes to the
deterministic local path `cache_dir / uuid5(identifier).mp3` — a stable
namespace-based hash of the identifier alone, identical within and
across runs — and distinct identifiers yield distinct filenames at the
concrete pair of identifiers. -/
theorem c4_staging_filename_deterministic :
    (∀ cfg st ts cache t l,
        Op.download t l ∈ (download_all_tracks cfg st ts cache).1 →
        l = cfg.cache_dir ++ "/" ++ stage_filename t) ∧
    stage_filename "music/01.mp3" ≠ stage_filename "music/02.mp3" := by
  constructor
  · intro cfg st ts cache t l h
    obtain ⟨t0, _, hop⟩ := download_ops_shape cfg st ts cache _ h
    injection hop with h1 h2
    subst h1
    exact h2
  · decide

/-- C5: live-scan enumeration is exactly the bucket listing with the
directory-marker keys (ending in `/`) and the non-`.mp3` keys removed,
in the store's order; on the listing `["a/", "a/track.mp3",
"b/note.txt"]` it yields exactly `["a/track.mp3"]`. -/
theorem c5_live_scan_filter :
    (∀ st : Store, ∀ files, st.client_list = .ok files →
        TrackLister.ingest_s3 st =
          .ok (files.filter (fun k => !pyEndsWith k "/" && pyEndsWith k ".mp3"))) ∧
    TrackLister.ingest_s3 (allOkStore ["a/", "a/track.mp3", "b/note.txt"]) =
      .ok ["a/track.mp3"] := by
  constructor
  · intro st files hl
    unfold TrackLister.ingest_s3 S3io.list_bucket_contents
    rw [hl]
    simp [ingest_s3_loop_eq, TrackLister.ingest_s3]
  · decide

/-- C6: manifest enumeration keeps exactly the `input` entries ending in
`.mp3`, in manifest order. -/
theorem c6_manifest_filter :
    (∀ data_input : List String,
        TrackLister.ingest_trackfile data_input =
          data_input.filter (fun t => pyEndsWith t ".mp3")) ∧
    TrackLister.ingest_trackfile ["music/01.mp3", "music/notes.txt"] =
      ["music/01.mp3"] :=
  ⟨ingest_trackfile_eq_filter, by decide⟩

/-- C7 counterexample: with an empty `sort_mask` template the render is
the empty string, yet the run completes normally and uploads the staged
file under the empty destination key — no error is raised. -/
theorem c7_empty_render_upload_counterexample :
    (runMain cfgEmptyMask wEmptyMask []).outcome = .ok () ∧
    (runMain cfgEmptyMask wEmptyMask []).ops.any isEmptyUpload = true := by
  refine ⟨by decide, by decide⟩

/-- C7 (amended): the publish step performs no validation of
`target_path`: in a normally terminating run, a staged file whose
template renders to the empty string is uploaded under the empty
destination key rather than treated as an error. -/
theorem c7_empty_render_still_uploaded (cfg : Config) (w : World)
    (c0 : List String) (t l : String)
    (hok : (runMain cfg w c0).outcome = .ok ())
    (hdl : Op.download t l ∈ (runMain cfg w c0).ops)
    (hempty : TrackConverter.load_target_template (w.tags_of l) cfg.sort_mask = "") :
    Op.upload l "" ∈ (runMain cfg w c0).ops := by
  have h := runMain_uploads_staged cfg w c0 hok t l hdl
  rwa [hempty] at h

/-- C7 witness: the empty-template run uploads its one staged file under
the empty key. -/
theorem c7_empty_render_still_uploaded_witness :
    Op.upload ("cache/" ++ uuid5Str "a.mp3" ++ ".mp3") "" ∈
      (runMain cfgEmptyMask wEmptyMask []).ops :=
  c7_empty_render_still_uploaded cfgEmptyMask wEmptyMask []
    "a.mp3" ("cache/" ++ uuid5Str "a.mp3" ++ ".mp3")
    (by decide) (by decide) rfl

/-- C8 counterexample: when the client rejects an upload, `upload_file`
fails with the raw `ClientError` (there is no `try/except` around the
upload call), not with the system's `InvalidPermissions` taxonomy error
that `download_file` and `list_bucket_contents` produce. -/
theorem c8_upload_error_counterexample :
    S3io.upload_file deniedStore "local.mp3" "obj.mp3" =
      .error (.rawClientError deniedClientErr) ∧
    S3io.upload_file deniedStore "local.mp3" "obj.mp3" ≠
      .error .invalidPermissions ∧
    S3io.download_file deniedStore "x.mp3" "local.mp3" =
      .error .invalidPermissions ∧
    S3io.list_bucket_contents deniedStore = .error .invalidPermissions := by
  refine ⟨rfl, by decide, rfl, rfl⟩

/-- C8 (amended): an authorization failure on upload propagates the raw
store client error unchanged, while download (like list) translates the
same client failure into `InvalidPermissions`. -/
theorem c8_upload_propagates_raw_client_error (st : Store) (lf ob : String)
    (e : ClientError) (h : st.client_upload lf ob = .error e) :
    S3io.upload_file st lf ob = .error (.rawClientError e) ∧
    (∀ r l, st.client_download r l = .error e →
      S3io.download_file st r l = .error .invalidPermissions) := by
  constructor
  · unfold S3io.upload_file
    rw [h]
  · intro r l hd
    unfold S3io.download_file
    rw [hd]

/-- C8 witness: the amended behaviour at the concrete denied store. -/
theorem c8_upload_propagates_raw_client_error_witness :
    S3io.upload_file deniedStore "local.mp3" "obj.mp3" =
      .error (.rawClientError deniedClientErr) ∧
    (∀ r l, deniedStore.client_download r l = .error deniedClientErr →
      S3io.download_file deniedStore r l = .error .invalidPermissions) :=
  c8_upload_propagates_raw_client_error deniedStore "local.mp3" "obj.mp3"
    deniedClientErr rfl

/-- C9: at the end of a normally terminating run the staging directory
is in exactly one of two states: with `persistent_cache = false` it is
removed entirely; with `persistent_cache = true` it is untouched and
still contains the staging file of every downloaded track. -/
theorem c9_cache_final_state (cfg : Config) (w : World) (c0 : List String)
    (hok : (runMain cfg w c0).outcome = .ok ()) :
    (cfg.persistent_cache = false → (runMain cfg w c0).cache_final = none) ∧
    (cfg.persistent_cache = true → ∃ c, (runMain cfg w c0).cache_final = some c ∧
      ∀ t l, Op.download t l ∈ (runMain cfg w c0).ops → stage_filename t ∈ c) :=
  runMain_final_cache cfg w c0 hok

/-- C9 witness: a concrete run with `persistent_cache = false` ends with
the staging directory removed. -/
theorem c9_cache_final_state_witness :
    (runMain cfgPurge wDemo []).cache_final = none :=
  (c9_cache_final_state cfgPurge wDemo [] (by decide)).1 rfl

/-- C10: the configuration only defines `log_file` when `log_to_file` is
true, while `Logger.__init__` reads it unconditionally; every run
configured with `log_to_file = false` therefore aborts with an
`AttributeError` at the very first component construction, before any
store operation or pipeline phase, leaving the staging directory as it
was. -/
theorem c10_log_to_file_false_fails_at_construction (raw : RawIni) (w : World)
    (c0 : List String) (h : raw.log_to_file = false) :
    runMain (Config.init raw) w c0 = ⟨[], some c0, .error .attributeError⟩ := by
  have hlf : (Config.init raw).log_file = none := by
    simp [Config.init, h]
  unfold runMain
  simp [Logger.init, hlf]

/-- C10 witness: the concrete no-log-file configuration aborts before
issuing any operation. -/
theorem c10_log_to_file_false_fails_at_construction_witness :
    runMain (Config.init rawNoLog) wDemo [] =
      ⟨[], some [], .error .attributeError⟩ :=
  c10_log_to_file_false_fails_at_construction rawNoLog wDemo [] rfl
